import Mathlib

set_option maxRecDepth 8000

/-!
Shallow embedding of the IdeaScan crawler service (crawler-service/app),
covering the risk controller (risk_control.py), limit sanitization and rate
selection (adapters/xiaohongshu_adapter.py), the XHS signing checksum, the
signed search stage, candidate relevance filtering, paginated comment
collection and the per-candidate crawl loop (browser_scraper.py), and the
proxy binding store (session_store.py). Python floats are modelled as
rationals, Python ints as integers, wall-clock readings as explicit
parameters, and network traffic as oracle functions supplied to the
embedded control flow.
-/

/-- State of a `TokenBucket` (risk_control.py): refill rate, capacity, current
token count, and the time of the last refill. -/
structure TokenBucket where
  rate : ℚ
  capacity : ℚ
  tokens : ℚ
  lastRefill : ℚ
deriving DecidableEq, Repr

/-- `TokenBucket.allow` (risk_control.py lines 16-24): refill lazily from the
elapsed wall clock, clamped at capacity, then consume `cost` tokens and answer
true when at least `cost` tokens are available, else answer false leaving the
refilled count in place. The current time is passed explicitly in place of
`monotonic()`. -/
def TokenBucket.allow (b : TokenBucket) (now cost : ℚ) : Bool × TokenBucket :=
  let elapsed := now - b.lastRefill
  let tokens := min b.capacity (b.tokens + elapsed * b.rate)
  if cost ≤ tokens then
    (true, { b with tokens := tokens - cost, lastRefill := now })
  else
    (false, { b with tokens := tokens, lastRefill := now })

/-- The bucket minted by `RiskController.check_rate_limit` (risk_control.py
lines 54-59) when no bucket exists for the key: tokens start at capacity. -/
def freshTokenBucket (rate capacity now : ℚ) : TokenBucket :=
  { rate := rate, capacity := capacity, tokens := capacity, lastRefill := now }

/-- Bucket state after `n` consecutive `allow` calls with cost 1, all issued at
the same instant `now`. -/
def TokenBucket.allowIter (b : TokenBucket) (now : ℚ) : ℕ → TokenBucket
  | 0 => b
  | n + 1 => ((b.allowIter now n).allow now 1).2

/-- `RiskController.check_cooldown` (risk_control.py lines 61-69): allow when
the minimum interval is non-positive, no previous firing is recorded, or the
interval has elapsed; record the firing time only when allowed. -/
def checkCooldown (last : Option ℚ) (now minIntervalS : ℚ) : Bool × Option ℚ :=
  if minIntervalS ≤ 0 then (true, last)
  else
    match last with
    | some t => if now - t < minIntervalS then (false, some t) else (true, some now)
    | none => (true, some now)

/-- Modelled from the spec: `RiskController.acquire_cooldown` is invoked by
`XiaohongshuAdapter.crawl` (xiaohongshu_adapter.py line 79) expecting a pair
`(allowed, remaining-seconds)`, but no definition of it appears in the
repository sources; only `check_cooldown` (returning a bare bool) exists.
Following spec section 4.2, the denial condition and the state update mirror
`check_cooldown`, and when denied the second component is the remaining wait
time until the cooldown expires. -/
def acquireCooldown (last : Option ℚ) (now minIntervalS : ℚ) :
    (Bool × ℚ) × Option ℚ :=
  if minIntervalS ≤ 0 then ((true, 0), last)
  else
    match last with
    | some t =>
        if now - t < minIntervalS then
          ((false, minIntervalS - (now - t)), some t)
        else ((true, 0), some now)
    | none => ((true, 0), some now)

/-- Token-bucket rate chosen by `XiaohongshuAdapter.crawl`
(xiaohongshu_adapter.py line 61): 0.8 for quick mode, 1.6 otherwise. -/
def xhsBucketRate (mode : String) : ℚ :=
  if mode = "quick" then 4 / 5 else 8 / 5

/-- Token-bucket capacity chosen by `XiaohongshuAdapter.crawl`
(xiaohongshu_adapter.py line 62): 2.0 for quick mode, 4.0 otherwise. -/
def xhsBucketCapacity (mode : String) : ℚ :=
  if mode = "quick" then 2 else 4

/-- Limits carried by a crawl job payload (models.py `CrawlerJobLimits`). -/
structure CrawlerJobLimits where
  notes : ℤ
  commentsPerNote : ℤ
deriving DecidableEq, Repr

/-- The payload fields consumed by `XiaohongshuAdapter._sanitize_limits`
(models.py `CrawlerJobPayload`). -/
structure CrawlerJobPayload where
  query : String
  mode : String
  userId : String
  limits : CrawlerJobLimits
deriving DecidableEq, Repr

/-- The per-mode note and comment caps from config.py consumed by
`_sanitize_limits`. -/
structure XhsLimitSettings where
  quickMaxNotes : ℤ
  quickMaxCommentsPerNote : ℤ
  deepMaxNotes : ℤ
  deepMaxCommentsPerNote : ℤ
deriving DecidableEq, Repr

/-- Defaults from config.py lines 42-45. -/
def defaultXhsLimitSettings : XhsLimitSettings :=
  { quickMaxNotes := 10, quickMaxCommentsPerNote := 10,
    deepMaxNotes := 10, deepMaxCommentsPerNote := 10 }

/-- `XiaohongshuAdapter._sanitize_limits` (xiaohongshu_adapter.py lines 44-55):
deep-copy the payload, then clamp each requested limit to at least 1 and at
most the mode-configured maximum (itself floored at 1). The Python code
mutates only the copy (`payload.model_copy(deep=True)`); in this pure
embedding the input payload is untouched by construction and the sanitized
payload is the returned value. -/
def sanitizeLimits (cfg : XhsLimitSettings) (p : CrawlerJobPayload) :
    CrawlerJobPayload :=
  let maxNotes :=
    if p.mode = "deep" then max 1 cfg.deepMaxNotes else max 1 cfg.quickMaxNotes
  let maxComments :=
    if p.mode = "deep" then max 1 cfg.deepMaxCommentsPerNote
    else max 1 cfg.quickMaxCommentsPerNote
  { p with
    limits :=
      { notes := min (max 1 p.limits.notes) maxNotes,
        commentsPerNote := min (max 1 p.limits.commentsPerNote) maxComments } }

theorem allowIter_fresh_state (rate now : ℚ) (C : ℕ) :
    ∀ k : ℕ, k ≤ C →
      (freshTokenBucket rate C now).allowIter now k =
        { rate := rate, capacity := (C : ℚ), tokens := (C : ℚ) - (k : ℚ),
          lastRefill := now } := by
  intro k
  induction k with
  | zero =>
      intro _
      simp [TokenBucket.allowIter, freshTokenBucket]
  | succ n ih =>
      intro hn
      have hn' : n ≤ C := Nat.le_of_succ_le hn
      have h1 : (1 : ℚ) ≤ (C : ℚ) - (n : ℚ) := by
        have : ((n : ℚ) + 1) ≤ (C : ℚ) := by exact_mod_cast hn
        linarith
      have hle : (C : ℚ) - (n : ℚ) ≤ (C : ℚ) := by
        have : (0 : ℚ) ≤ (n : ℚ) := by positivity
        linarith
      rw [TokenBucket.allowIter, ih hn']
      simp only [TokenBucket.allow, sub_self, zero_mul, add_zero,
    min_eq_right hle, if_pos h1]
      refine TokenBucket.mk.injEq .. ▸ ?_
      push_cast
      refine ⟨rfl, rfl, by ring, rfl⟩

/-- C5: `TokenBucket.allow` first refills the token count to
min(capacity, tokens + elapsed*rate), then returns true and consumes exactly
one token when the refilled count is at least 1, and otherwise returns false
with no further state change beyond the refill itself; consequently on a
fresh bucket of capacity C, C immediate calls all succeed and the (C+1)-th
immediate call fails. -/
theorem tokenBucket_allow_refill_consume :
    (∀ (b : TokenBucket) (now : ℚ),
      let refilled := min b.capacity (b.tokens + (now - b.lastRefill) * b.rate)
      ((b.allow now 1).1 = true ↔ 1 ≤ refilled)
      ∧ ((b.allow now 1).1 = true → (b.allow now 1).2 =
          { b with tokens := refilled - 1, lastRefill := now })
      ∧ ((b.allow now 1).1 = false → (b.allow now 1).2 =
          { b with tokens := refilled, lastRefill := now }))
    ∧ (∀ (C : ℕ) (rate now : ℚ),
      (∀ k : ℕ, k < C →
        ((((freshTokenBucket rate C now).allowIter now k).allow now 1).1 = true))
      ∧ (((freshTokenBucket rate C now).allowIter now C).allow now 1).1 = false) := by
  constructor
  · intro b now refilled
    by_cases h : (1 : ℚ) ≤ refilled
    · refine ⟨by simp [TokenBucket.allow, refilled, h], ?_, ?_⟩
      · intro _
        simp [TokenBucket.allow, refilled, h]
      · intro hfalse
        exact absurd hfalse (by simp [TokenBucket.allow, refilled, h])
    · refine ⟨by simp [TokenBucket.allow, refilled, h], ?_, ?_⟩
      · intro htrue
        exact absurd htrue (by simp [TokenBucket.allow, refilled, h])
      · intro _
        simp [TokenBucket.allow, refilled, h]
  · intro C rate now
    constructor
    · intro k hk
      rw [allowIter_fresh_state rate now C k (Nat.le_of_lt hk)]
      have h1 : (1 : ℚ) ≤ (C : ℚ) - (k : ℚ) := by
        have : ((k : ℚ) + 1) ≤ (C : ℚ) := by exact_mod_cast hk
        linarith
      have hle : (C : ℚ) - (k : ℚ) ≤ (C : ℚ) := by
        have : (0 : ℚ) ≤ (k : ℚ) := by positivity
        linarith
      simp [TokenBucket.allow, min_eq_right hle, h1]
    · rw [allowIter_fresh_state rate now C C le_rfl]
      simp [TokenBucket.allow]
      norm_num

theorem tokenBucket_allow_witness :
    ((((freshTokenBucket 1 ((2 : ℕ) : ℚ) 0).allowIter 0 1).allow 0 1).1 = true)
    ∧ ((((freshTokenBucket 1 ((2 : ℕ) : ℚ) 0).allowIter 0 2).allow 0 1).1 = false) :=
  ⟨(tokenBucket_allow_refill_consume.2 2 1 0).1 1 (by decide),
   (tokenBucket_allow_refill_consume.2 2 1 0).2⟩

/-- C7 counterexample: the configured deep-mode token-bucket rate (1.6) is not
lower than the quick-mode rate (0.8) — it is exactly twice as high, so the
claim that deep mode gets a materially lower rate fails on the code. -/
theorem xhsBucketRate_deep_not_lower :
    xhsBucketRate "deep" = 8 / 5 ∧ xhsBucketRate "quick" = 4 / 5 ∧
      ¬ xhsBucketRate "deep" < xhsBucketRate "quick" := by
  have h : ("deep" : String) ≠ "quick" := by decide
  norm_num [xhsBucketRate, h]

/-- C7 amended: for the same platform key the deep-mode token-bucket rate is
materially higher (2x) than the quick-mode rate, and the deep-mode capacity is
likewise twice the quick-mode capacity. -/
theorem xhsBucketRate_deep_is_higher :
    xhsBucketRate "quick" < xhsBucketRate "deep"
    ∧ xhsBucketRate "deep" = 2 * xhsBucketRate "quick"
    ∧ xhsBucketCapacity "deep" = 2 * xhsBucketCapacity "quick" := by
  have h : ("deep" : String) ≠ "quick" := by decide
  norm_num [xhsBucketRate, xhsBucketCapacity, h]

/-- C8 (spec-modelled `acquire_cooldown`): the call returns a pair
(allowed, remaining); it is denied exactly when the key fired less than the
minimum interval ago, and on denial the remaining seconds equal the wait until
the cooldown expires (now + remaining = last-fire + interval), are strictly
positive, and the recorded last-fire time is left unchanged. -/
theorem acquireCooldown_remaining (t now minIntervalS : ℚ) :
    ((acquireCooldown (some t) now minIntervalS).1.1 = false ↔
      0 < minIntervalS ∧ now - t < minIntervalS)
    ∧ ((acquireCooldown (some t) now minIntervalS).1.1 = false →
        now + (acquireCooldown (some t) now minIntervalS).1.2 = t + minIntervalS
        ∧ 0 < (acquireCooldown (some t) now minIntervalS).1.2
        ∧ (acquireCooldown (some t) now minIntervalS).2 = some t) := by
  by_cases h0 : minIntervalS ≤ 0
  · rw [show acquireCooldown (some t) now minIntervalS = ((true, 0), some t) from by
      simp [acquireCooldown, h0]]
    refine ⟨by simp; intro h1; linarith, by simp⟩
  · push_neg at h0
    by_cases hlt : now - t < minIntervalS
    · rw [show acquireCooldown (some t) now minIntervalS =
          ((false, minIntervalS - (now - t)), some t) from by
        simp [acquireCooldown, not_le.mpr h0, hlt]]
      exact ⟨by simp [h0, hlt], fun _ =>
        ⟨by ring, by change (0 : ℚ) < minIntervalS - (now - t); linarith, rfl⟩⟩
    · rw [show acquireCooldown (some t) now minIntervalS = ((true, 0), some now) from by
        simp [acquireCooldown, not_le.mpr h0, hlt]]
      refine ⟨by simp [hlt], by simp⟩

theorem acquireCooldown_remaining_witness :
    (1 : ℚ) + (acquireCooldown (some 0) 1 5).1.2 = 0 + 5
    ∧ 0 < (acquireCooldown (some 0) 1 5).1.2
    ∧ (acquireCooldown (some 0) 1 5).2 = some 0 :=
  (acquireCooldown_remaining 0 1 5).2 (by norm_num [acquireCooldown])

/-- C10: `_sanitize_limits` clamps the requested limits on a copy of the
payload: each effective limit equals min(max(1, requested), mode-configured
maximum floored at 1), hence lies in [1, max]; zero or negative requests are
coerced to 1 instead of being rejected; and all other payload fields are
carried over unchanged (the original payload is never mutated — the embedding
is pure and the source mutates only its deep copy). -/
theorem sanitizeLimits_clamps (cfg : XhsLimitSettings) (p : CrawlerJobPayload) :
    let maxNotes := if p.mode = "deep" then max 1 cfg.deepMaxNotes
      else max 1 cfg.quickMaxNotes
    let maxComments := if p.mode = "deep" then max 1 cfg.deepMaxCommentsPerNote
      else max 1 cfg.quickMaxCommentsPerNote
    let s := sanitizeLimits cfg p
    s.limits.notes = min (max 1 p.limits.notes) maxNotes
    ∧ s.limits.commentsPerNote = min (max 1 p.limits.commentsPerNote) maxComments
    ∧ 1 ≤ s.limits.notes ∧ s.limits.notes ≤ maxNotes
    ∧ 1 ≤ s.limits.commentsPerNote ∧ s.limits.commentsPerNote ≤ maxComments
    ∧ (p.limits.notes ≤ 0 → s.limits.notes = 1)
    ∧ (p.limits.commentsPerNote ≤ 0 → s.limits.commentsPerNote = 1)
    ∧ s.query = p.query ∧ s.mode = p.mode ∧ s.userId = p.userId := by
  by_cases h : p.mode = "deep" <;>
    simp [sanitizeLimits, h] <;> omega

theorem sanitizeLimits_clamps_witness :
    (sanitizeLimits defaultXhsLimitSettings
      { query := "q", mode := "quick", userId := "u",
        limits := { notes := -5, commentsPerNote := 0 } }).limits.notes = 1
    ∧ (sanitizeLimits defaultXhsLimitSettings
      { query := "q", mode := "quick", userId := "u",
        limits := { notes := -5, commentsPerNote := 0 } }).limits.commentsPerNote = 1 := by
  have h := sanitizeLimits_clamps defaultXhsLimitSettings
    { query := "q", mode := "quick", userId := "u",
      limits := { notes := -5, commentsPerNote := 0 } }
  exact ⟨h.2.2.2.2.2.2.1 (by decide), h.2.2.2.2.2.2.2.1 (by decide)⟩

/-- One entry of the table built by `_xhs_build_crc32_table`
(browser_scraper.py lines 259-266): eight conditional shift-xor rounds,
masked to 32 bits. -/
def xhsCrc32Entry (i : ℕ) : ℕ :=
  ((List.range 8).foldl
    (fun c _ => if c &&& 1 = 1 then 0xEDB88320 ^^^ (c >>> 1) else c >>> 1) i)
    &&& 0xFFFFFFFF

/-- `XHS_CRC32_TABLE` (browser_scraper.py line 269). -/
def xhsCrc32Table : List ℕ := (List.range 256).map xhsCrc32Entry

/-- `_xhs_right_shift_unsigned` (browser_scraper.py lines 272-275):
reinterpret the int as unsigned 32-bit (`ctypes.c_uint32`, i.e. mod 2^32),
shift right (floor division on a non-negative value), then apply the signed
wrap expression from the source verbatim. -/
def xhsRightShiftUnsigned (num : ℤ) (bit : ℕ) : ℤ :=
  let val : ℤ := (num % 4294967296) / 2 ^ bit
  let max32 : ℤ := 4294967295
  (val + (max32 + 1)) % (2 * (max32 + 1)) - max32 - 1

/-- `_xhs_mrc` (browser_scraper.py lines 278-282): CRC-32 style accumulation
over at most the first 57 characters of the input, starting from -1, finished
by xor with -1 and 3988292384. The accumulator is an unbounded Python int;
its bitwise ops are two's complement, so the table index `(acc & 255) ^ ord(c)`
is modelled as `(acc mod 256) ^^^ c.toNat` (equal to Python `&` with 255) and
the xors use `Int.xor`. A lookup index above 255 raises IndexError in Python,
hence the `Option` result. -/
def xhsMrc (value : String) : Option ℤ :=
  let step : Option ℤ → Char → Option ℤ := fun acc c =>
    acc.bind fun a =>
      match xhsCrc32Table.get? (((a % 256).toNat) ^^^ c.toNat) with
      | some t => some (Int.xor (t : ℤ) (xhsRightShiftUnsigned a 8))
      | none => none
  ((value.data.take 57).foldl step (some (-1))).map
    fun a => Int.xor (Int.xor a (-1)) 3988292384

/-- C4 counterexample: the checksum of the one-character string is the
negative integer -4210082461 (it even lies below -2^31), so the result is not
a 32-bit unsigned value as claimed: the Python function never reduces its
signed accumulator back into unsigned 32-bit range. -/
theorem xhsMrc_not_unsigned :
    xhsMrc "a" = some (-4210082461) ∧ (-4210082461 : ℤ) < 0 := by
  exact ⟨by decide, by decide⟩

/-- C4 amended: the checksum consumes at most the first 57 characters —
`Checksum(s)` equals `Checksum` of the 57-character prefix for every string —
and is a pure function of that prefix (deterministic by construction); its
value however is a raw signed integer in Python, not a 32-bit unsigned
quantity. -/
theorem xhsMrc_truncates_at_57 (s : String) :
    xhsMrc s = xhsMrc (String.mk (s.data.take 57)) := by
  simp [xhsMrc, List.take_take]

/-- ASCII lowercasing of one character (Python `str.lower` restricted to the
ASCII letters actually exercised here). -/
def lowerChar (c : Char) : Char :=
  if 65 ≤ c.toNat ∧ c.toNat ≤ 90 then Char.ofNat (c.toNat + 32) else c

/-- ASCII lowercasing of a string. -/
def lowerStr (s : String) : String := String.mk (s.data.map lowerChar)

/-- ASCII whitespace, the characters removed by Python `str.strip`. -/
def isPySpace (c : Char) : Bool :=
  decide (c.toNat = 32 ∨ (9 ≤ c.toNat ∧ c.toNat ≤ 13))

/-- Python `str.strip`: drop whitespace from both ends. -/
def stripStr (s : String) : String :=
  String.mk (((s.data.dropWhile isPySpace).reverse.dropWhile isPySpace).reverse)

/-- Python str.startswith over the character lists (String.startsWith is
avoided as it does not reduce in the kernel). -/
def strStartsWith (s pre : String) : Bool :=
  decide (s.data.take pre.data.length = pre.data)

/-- Character in the CJK unified range, the test performed by the source
regex for the class u4e00-u9fff. -/
def isCjkChar (c : Char) : Bool :=
  decide (0x4e00 ≤ c.toNat ∧ c.toNat ≤ 0x9fff)

/-- Python `re.search` of the CJK class over a string. -/
def containsCjk (s : String) : Bool := s.data.any isCjkChar

/-- Substring occurrence over character lists, modelling Python `in`. -/
def charListHasSub (hay pat : List Char) : Bool :=
  (List.range (hay.length + 1)).any fun i =>
    decide ((hay.drop i).take pat.length = pat)

/-- Membership in the boundary classes [a-z0-9] used by the word-match regex
of `_matched_query_terms` (the haystack is already lowercased). -/
def isAsciiWordChar (c : Char) : Bool :=
  decide ((0x61 ≤ c.toNat ∧ c.toNat ≤ 0x7a) ∨ (0x30 ≤ c.toNat ∧ c.toNat ≤ 0x39))

/-- Occurrence of `pat` in `hay` with no [a-z0-9] character directly before or
after the match: the semantics of the lookaround regex in
`_matched_query_terms` (browser_scraper.py line 183). -/
def charListHasWordMatch (hay pat : List Char) : Bool :=
  (List.range (hay.length + 1)).any fun i =>
    decide ((hay.drop i).take pat.length = pat)
    && (decide (i = 0) || !(isAsciiWordChar (hay.getD (i - 1) (Char.ofNat 32))))
    && (decide (hay.length ≤ i + pat.length)
        || !(isAsciiWordChar (hay.getD (i + pat.length) (Char.ofNat 32))))

/-- `_matched_query_terms` (browser_scraper.py lines 169-185): lowercase the
text, normalize each term (strip and lowercase, skipping empties), then match
CJK-bearing terms as substrings and other terms via the word-boundary regex;
return the matching normalized terms in order. -/
def matchedQueryTerms (text : String) (terms : List String) : List String :=
  let hay := lowerStr text
  if hay.data.isEmpty then []
  else
    (terms.map fun t => lowerStr (stripStr t)).filter fun term =>
      if term.data.isEmpty then false
      else if containsCjk term then charListHasSub hay.data term.data
      else charListHasWordMatch hay.data term.data

/-- A note candidate row as assembled by `_merge_note_sources` and consumed by
the orchestrator (browser_scraper.py lines 1267-1279). -/
structure NoteRow where
  id : String
  url : String
  title : String
  desc : String
  likedCount : ℤ
  commentsCount : ℤ
  collectedCount : ℤ
  source : String
  xsecToken : String
  searchSort : String
deriving DecidableEq, Repr

/-- `_is_relevant_candidate_row` (browser_scraper.py lines 203-211): signed
search rows pass outright; otherwise the row passes exactly when the term
list is non-empty — the matched terms are never consulted. -/
def isRelevantCandidateRow (row : NoteRow) (terms : List String) : Bool :=
  if strStartsWith row.source "api_signed:" then true
  else if terms.isEmpty then false
  else true

/-- The pool-level relevance gate of `_crawl_xiaohongshu` (browser_scraper.py
lines 1538-1544): with extractable query terms, keep the rows passing
`_is_relevant_candidate_row`, emptying the pool when none pass; with no terms
the gate is skipped. -/
def relevanceFilterPool (rows : List NoteRow) (terms : List String) :
    List NoteRow :=
  if terms.isEmpty then rows
  else
    let relevant := rows.filter fun r => isRelevantCandidateRow r terms
    if relevant.isEmpty then [] else relevant

/-- A zero-term-match DOM-sourced candidate used to exercise the gate. -/
def zeroMatchDomRow : NoteRow :=
  { id := "", url := "u", title := "hello", desc := "", likedCount := 0,
    commentsCount := 0, collectedCount := 0, source := "dom", xsecToken := "",
    searchSort := "" }

/-- C3 counterexample: with extractable query terms, a DOM-sourced candidate
whose title and desc match zero query terms is kept in the pool by the
relevance gate, contradicting the claim that such candidates are dropped. -/
theorem relevance_gate_keeps_zero_match_row :
    relevanceFilterPool [zeroMatchDomRow] ["fitness"] = [zeroMatchDomRow]
    ∧ matchedQueryTerms (zeroMatchDomRow.title ++ " " ++ zeroMatchDomRow.desc)
        ["fitness"] = []
    ∧ strStartsWith zeroMatchDomRow.source "api_signed:" = false := by
  refine ⟨by decide, by decide, by decide⟩

/-- C3 amended: the pool-level relevance gate never drops any candidate: the
row predicate consults only the signed-source prefix and whether the term
list is empty (never the matched terms), so with extractable query terms the
gate keeps every candidate, and with no terms the gate is skipped — on all
inputs the pool is returned unchanged. -/
theorem relevanceFilterPool_is_identity (rows : List NoteRow)
    (terms : List String) : relevanceFilterPool rows terms = rows := by
  by_cases hT : terms.isEmpty
  · simp [relevanceFilterPool, hT]
  · have hrel : ∀ r : NoteRow, isRelevantCandidateRow r terms = true := by
      intro r
      unfold isRelevantCandidateRow
      split
      · rfl
      · simp [hT]
    have hfilter : (rows.filter fun r => isRelevantCandidateRow r terms) = rows :=
      List.filter_eq_self.mpr fun a _ => hrel a
    cases rows with
    | nil => simp [relevanceFilterPool, hT]
    | cons a l => simp [relevanceFilterPool, hT, hfilter]

/-- A sticky-user proxy binding record as stored by
`SessionStore.acquire_proxy_binding` (session_store.py lines 197-206). -/
structure ProxyBinding where
  platform : String
  userId : String
  bindingId : String
  sessionKey : String
  createdAt : ℤ
  updatedAt : ℤ
  expiresAt : ℤ
  failures : ℤ
deriving DecidableEq, Repr

/-- The caller-visible part of the acquisition result (binding id and whether
rotation occurred); the derived proxy URL dictionary is orthogonal to binding
identity and not modelled. -/
structure AcquireResult where
  bindingId : String
  rotated : Bool
deriving DecidableEq, Repr

/-- The sticky-user path of `SessionStore.acquire_proxy_binding`
(session_store.py lines 172-217): load the stored binding for the key; mint
and persist a fresh binding (fresh session key supplied by the caller in
place of `secrets.token_hex(8)`, failures reset, `expires_at = now + ttl`)
when the binding is absent, has no session key, is expired (`now >=
expires_at`) or has reached the rotation threshold; otherwise touch
`updated_at` only. The binding id is `platform:userId:` followed by the first
6 characters of the session key. TTL is floored at 60 and the threshold at 1
as in the source. -/
def acquireProxyBinding (stored : Option ProxyBinding) (platform userId : String)
    (now ttlS rotateThreshold : ℤ) (freshKey : String) :
    AcquireResult × ProxyBinding :=
  let ttl := max 60 ttlS
  let thr := max 1 rotateThreshold
  let minted : ProxyBinding :=
    { platform := platform, userId := userId,
      bindingId := platform ++ ":" ++ userId ++ ":" ++ freshKey.take 6,
      sessionKey := freshKey, createdAt := now, updatedAt := now,
      expiresAt := now + ttl, failures := 0 }
  match stored with
  | none => ({ bindingId := minted.bindingId, rotated := true }, minted)
  | some b =>
      if b.sessionKey = "" ∨ b.expiresAt ≤ now ∨ thr ≤ b.failures then
        ({ bindingId := minted.bindingId, rotated := true }, minted)
      else
        ({ bindingId := b.bindingId, rotated := false },
         { b with updatedAt := now })

/-- `SessionStore.mark_proxy_binding_result` (session_store.py lines 219-241),
sticky-user mode with a stored binding: success resets the failure count,
failure increments it; `updated_at` is touched; a missing binding is left
untouched. Rotation never happens here. -/
def markProxyBindingResult (stored : Option ProxyBinding) (success : Bool)
    (now : ℤ) : Option ProxyBinding :=
  match stored with
  | none => none
  | some b =>
      some { b with failures := if success then 0 else b.failures + 1,
                    updatedAt := now }

theorem string_append_left_cancel_ne (s a b : String) (h : a ≠ b) :
    s ++ a ≠ s ++ b := by
  intro he
  apply h
  have hd : (s ++ a).data = (s ++ b).data := by rw [he]
  rw [String.data_append, String.data_append] at hd
  exact String.ext (List.append_cancel_left hd)

theorem acquireProxyBinding_reuse (b : ProxyBinding) (platform userId : String)
    (now ttlS thr : ℤ) (k : String) (hkey : b.sessionKey ≠ "")
    (hexp : now < b.expiresAt) (hfail : b.failures < max 1 thr) :
    acquireProxyBinding (some b) platform userId now ttlS thr k =
      ({ bindingId := b.bindingId, rotated := false },
       { b with updatedAt := now }) := by
  have hcond : ¬ (b.sessionKey = "" ∨ b.expiresAt ≤ now ∨ max 1 thr ≤ b.failures) := by
    push_neg
    exact ⟨hkey, hexp, hfail⟩
  simp only [acquireProxyBinding]
  rw [if_neg hcond]

theorem acquireProxyBinding_mint (stored : Option ProxyBinding)
    (platform userId : String) (now ttlS thr : ℤ) (k : String)
    (h : stored = none
      ∨ ∃ b, stored = some b ∧
          (b.sessionKey = "" ∨ b.expiresAt ≤ now ∨ max 1 thr ≤ b.failures)) :
    acquireProxyBinding stored platform userId now ttlS thr k =
      ({ bindingId := platform ++ ":" ++ userId ++ ":" ++ k.take 6,
         rotated := true },
       { platform := platform, userId := userId,
         bindingId := platform ++ ":" ++ userId ++ ":" ++ k.take 6,
         sessionKey := k, createdAt := now, updatedAt := now,
         expiresAt := now + max 60 ttlS, failures := 0 }) := by
  rcases h with h | ⟨b, rfl, hb⟩
  · subst h
    rfl
  · simp only [acquireProxyBinding]
    rw [if_pos hb]

/-- C6: acquiring a proxy binding returns the stored binding unchanged (same
binding id, only `updated_at` touched, no rotation reported) when it exists,
has a session key, is unexpired and below the rotation threshold; otherwise
it mints and persists a fresh binding (new session key, failures 0,
`expires_at = now + ttl`) and reports rotation. Hence two acquisitions within
TTL with no failures return the same binding id, while an acquisition made
once the failure count (driven by `mark_proxy_binding_result`) has reached
the threshold returns a different binding id whenever the freshly drawn
session key differs from the old one in its first 6 characters. -/
theorem proxyBinding_acquire_rotation :
    (∀ (b : ProxyBinding) (platform userId : String) (now ttlS thr : ℤ)
        (k : String), b.sessionKey ≠ "" → now < b.expiresAt →
        b.failures < max 1 thr →
        acquireProxyBinding (some b) platform userId now ttlS thr k =
          ({ bindingId := b.bindingId, rotated := false },
           { b with updatedAt := now }))
    ∧ (∀ (stored : Option ProxyBinding) (platform userId : String)
        (now ttlS thr : ℤ) (k : String),
        (stored = none
          ∨ ∃ b, stored = some b ∧
              (b.sessionKey = "" ∨ b.expiresAt ≤ now ∨ max 1 thr ≤ b.failures)) →
        acquireProxyBinding stored platform userId now ttlS thr k =
          ({ bindingId := platform ++ ":" ++ userId ++ ":" ++ k.take 6,
             rotated := true },
           { platform := platform, userId := userId,
             bindingId := platform ++ ":" ++ userId ++ ":" ++ k.take 6,
             sessionKey := k, createdAt := now, updatedAt := now,
             expiresAt := now + max 60 ttlS, failures := 0 }))
    ∧ (∀ (platform userId : String) (t1 t2 ttlS thr : ℤ) (k1 k2 : String),
        k1 ≠ "" → t2 < t1 + max 60 ttlS →
        ((acquireProxyBinding
            (some (acquireProxyBinding none platform userId t1 ttlS thr k1).2)
            platform userId t2 ttlS thr k2).1.bindingId =
          (acquireProxyBinding none platform userId t1 ttlS thr k1).1.bindingId
        ∧ (acquireProxyBinding
            (some (acquireProxyBinding none platform userId t1 ttlS thr k1).2)
            platform userId t2 ttlS thr k2).1.rotated = false))
    ∧ (∀ (b : ProxyBinding) (platform userId : String) (now ttlS thr : ℤ)
        (k1 k2 : String),
        b.bindingId = platform ++ ":" ++ userId ++ ":" ++ k1.take 6 →
        max 1 thr ≤ b.failures → k2.take 6 ≠ k1.take 6 →
        (acquireProxyBinding (some b) platform userId now ttlS thr
            k2).1.bindingId ≠ b.bindingId)
    ∧ (∀ (b : ProxyBinding) (now : ℤ),
        markProxyBindingResult (some b) false now =
          some { b with failures := b.failures + 1, updatedAt := now }
        ∧ markProxyBindingResult (some b) true now =
          some { b with failures := 0, updatedAt := now }) := by
  refine ⟨?_, ?_, ?_, ?_, ?_⟩
  · intro b platform userId now ttlS thr k hkey hexp hfail
    exact acquireProxyBinding_reuse b platform userId now ttlS thr k hkey hexp hfail
  · intro stored platform userId now ttlS thr k h
    exact acquireProxyBinding_mint stored platform userId now ttlS thr k h
  · intro platform userId t1 t2 ttlS thr k1 k2 hk1 ht
    have hfirst := acquireProxyBinding_mint none platform userId t1 ttlS thr k1
      (Or.inl rfl)
    rw [hfirst]
    have hreuse := acquireProxyBinding_reuse
      { platform := platform, userId := userId,
        bindingId := platform ++ ":" ++ userId ++ ":" ++ k1.take 6,
        sessionKey := k1, createdAt := t1, updatedAt := t1,
        expiresAt := t1 + max 60 ttlS, failures := 0 }
      platform userId t2 ttlS thr k2 hk1 ht (by positivity)
    rw [hreuse]
    exact ⟨rfl, rfl⟩
  · intro b platform userId now ttlS thr k1 k2 hid hfail hk
    have hmint := acquireProxyBinding_mint (some b) platform userId now ttlS thr k2
      (Or.inr ⟨b, rfl, Or.inr (Or.inr hfail)⟩)
    rw [hmint, hid]
    exact string_append_left_cancel_ne (platform ++ ":" ++ userId ++ ":")
      (k2.take 6) (k1.take 6) hk
  · intro b now
    exact ⟨rfl, rfl⟩

theorem proxyBinding_acquire_rotation_witness :
    ((acquireProxyBinding
        (some (acquireProxyBinding none "xiaohongshu" "u1" 0 1800 2 "aaaabbbb").2)
        "xiaohongshu" "u1" 60 1800 2 "ccccdddd").1.bindingId =
      (acquireProxyBinding none "xiaohongshu" "u1" 0 1800 2 "aaaabbbb").1.bindingId
    ∧ (acquireProxyBinding
        (some (acquireProxyBinding none "xiaohongshu" "u1" 0 1800 2 "aaaabbbb").2)
        "xiaohongshu" "u1" 60 1800 2 "ccccdddd").1.rotated = false)
    ∧ (acquireProxyBinding
        (some { platform := "xiaohongshu", userId := "u1",
                bindingId := "xiaohongshu" ++ ":" ++ "u1" ++ ":" ++ String.take "aaaabbbb" 6,
                sessionKey := "aaaabbbb", createdAt := 0, updatedAt := 0,
                expiresAt := 1860, failures := 2 })
        "xiaohongshu" "u1" 60 1800 2 "ccccdddd").1.bindingId ≠
      "xiaohongshu" ++ ":" ++ "u1" ++ ":" ++ String.take "aaaabbbb" 6 := by
  constructor
  · exact proxyBinding_acquire_rotation.2.2.1 "xiaohongshu" "u1" 0 60 1800 2
      "aaaabbbb" "ccccdddd" (by decide) (by decide)
  · exact proxyBinding_acquire_rotation.2.2.2.1
      { platform := "xiaohongshu", userId := "u1",
        bindingId := "xiaohongshu" ++ ":" ++ "u1" ++ ":" ++ String.take "aaaabbbb" 6,
        sessionKey := "aaaabbbb", createdAt := 0, updatedAt := 0,
        expiresAt := 1860, failures := 2 }
      "xiaohongshu" "u1" 60 1800 2 "aaaabbbb" "ccccdddd" rfl (by decide) (by decide)

/-- Python substring containment on strings. -/
def strContains (s pat : String) : Bool := charListHasSub s.data pat.data

/-- `_xhs_is_hard_fail` (browser_scraper.py lines 470-478): the fixed set of
protocol failures that stop further attempts on the current path. -/
def xhsIsHardFail (error : String) : Bool :=
  strContains error "api_error_-104"
  || strContains error "api_error_300011"
  || strContains error "api_error_300012"
  || strContains error "api_error_-510001"
  || strContains error "mnsv2_"

/-- Per-item error classification inside `_xhs_normalize_error`
(browser_scraper.py lines 481-493): the checks are tried in priority order on
each recorded error string. -/
def classifyXhsError (item : String) : Option String :=
  if strContains item "api_error_-104" then some "xhs_search_forbidden_-104"
  else if strContains item "api_error_300011" then some "xhs_account_abnormal_300011"
  else if strContains item "api_error_300012" then some "xhs_network_risk_300012"
  else if strContains item "api_error_-510001" then some "xhs_note_abnormal_-510001"
  else if strContains item "mnsv2_" then some "xhs_sign_unavailable"
  else none

/-- `_xhs_normalize_error` (browser_scraper.py lines 481-493): first recorded
error that classifies wins; otherwise the generic empty-crawl code. -/
def xhsNormalizeError (errors : List String) : String :=
  match errors.findSome? classifyXhsError with
  | some e => e
  | none => "session_crawl_empty"

/-- `_xhs_search_sorts` (browser_scraper.py lines 562-565). -/
def xhsSearchSorts (mode : String) : List String :=
  if mode = "quick" then ["popularity_descending", "time_descending"]
  else ["popularity_descending", "general", "time_descending"]

/-- `_note_candidate_pool_size` (browser_scraper.py lines 1233-1237). -/
def noteCandidatePoolSize (maxNotes : ℤ) (mode : String) : ℕ :=
  let base : ℕ := (max 1 maxNotes).toNat
  let floorSize : ℕ := if mode = "quick" then 8 else 12
  let multiplier : ℕ := if mode = "quick" then 2 else 3
  min 48 (max base (max floorSize (base * multiplier)))

/-- One signed search response as seen by `_fetch_xhs_search_notes_signed`:
the error string from `_xhs_request_json_signed` (empty on success), the note
candidates extracted from the payload, and the payload's `has_more` field.
The JSON extraction itself is a pure bounded walk orthogonal to the retry
control flow modelled here, so responses carry its outputs directly. -/
structure SignedSearchResp where
  err : String
  batch : List NoteRow
  hasMore : Option Bool
deriving Repr

/-- Running state of the signed search stage: candidate rows and dedup keys
of the current invocation, accumulated error strings, and the total number of
signed search requests issued so far (the index into the response oracle). -/
structure SignedFetchState where
  rows : List NoteRow
  seen : List String
  errors : List String
  calls : ℕ
deriving Repr

/-- The batch-append loop of `_fetch_xhs_search_notes_signed`
(browser_scraper.py lines 611-620): dedup by url-or-id, tag the row with the
signed source and sort, and return early once the pool target is reached. -/
def addSignedBatch (sort : String) (poolTarget : ℕ) :
    List NoteRow → SignedFetchState → SignedFetchState × Bool
  | [], st => (st, false)
  | item :: rest, st =>
      let uniq := if item.url ≠ "" then item.url else item.id
      if uniq = "" ∨ st.seen.contains uniq then
        addSignedBatch sort poolTarget rest st
      else
        let row := { item with source := "api_signed:" ++ sort, searchSort := sort }
        let st2 := { st with seen := st.seen ++ [uniq], rows := st.rows ++ [row] }
        if poolTarget ≤ st2.rows.length then (st2, true)
        else addSignedBatch sort poolTarget rest st2

/-- The inner page loop of `_fetch_xhs_search_notes_signed` for one sort
(browser_scraper.py lines 585-624): issue a signed request per page; on error
record it and return immediately for the whole invocation when it is a hard
fail, else try the next page; on success append the batch (returning when the
pool target fills) and stop the sort after a `has_more = false` page. The
second component signals an invocation-wide early return. -/
def signedPagesLoop (oracle : ℕ → SignedSearchResp) (sort : String)
    (poolTarget : ℕ) : ℕ → SignedFetchState → SignedFetchState × Bool
  | 0, st => (st, false)
  | n + 1, st =>
      let resp := oracle st.calls
      let st1 := { st with calls := st.calls + 1 }
      if resp.err ≠ "" then
        let st2 := { st1 with
          errors := st1.errors ++ ["search:" ++ sort ++ ":" ++ resp.err] }
        if xhsIsHardFail resp.err then (st2, true)
        else signedPagesLoop oracle sort poolTarget n st2
      else
        match addSignedBatch sort poolTarget resp.batch st1 with
        | (st2, true) => (st2, true)
        | (st2, false) =>
            if resp.hasMore = some false then (st2, false)
            else signedPagesLoop oracle sort poolTarget n st2

/-- The outer sort loop of `_fetch_xhs_search_notes_signed`
(browser_scraper.py line 584): run the page loop per sort unless an early
return was requested. -/
def signedSortsLoop (oracle : ℕ → SignedSearchResp) (poolTarget maxPages : ℕ) :
    List String → SignedFetchState → SignedFetchState
  | [], st => st
  | sort :: rest, st =>
      match signedPagesLoop oracle sort poolTarget maxPages st with
      | (st2, true) => st2
      | (st2, false) => signedSortsLoop oracle poolTarget maxPages rest st2

/-- `_fetch_xhs_search_notes_signed` (browser_scraper.py lines 568-625): one
invocation with fresh rows/seen/errors; `startCalls` carries the number of
signed requests issued earlier in the job so that the oracle indexes requests
job-wide. Quick mode scans 1 page per sort, deep mode 2. -/
def fetchXhsSearchNotesSigned (oracle : ℕ → SignedSearchResp) (mode : String)
    (maxNotes : ℤ) (startCalls : ℕ) : SignedFetchState :=
  let poolTarget := noteCandidatePoolSize maxNotes mode
  let maxPages : ℕ := if mode = "quick" then 1 else 2
  signedSortsLoop oracle poolTarget maxPages (xhsSearchSorts mode)
    { rows := [], seen := [], errors := [], calls := startCalls }

/-- Environment of the search stage of `_crawl_xiaohongshu`: the signed
response oracle, the note candidates opportunistically captured from page
traffic at each entry navigation, and the hard-deadline check observed at
each entry iteration. -/
structure SearchStageEnv where
  oracle : ℕ → SignedSearchResp
  capture : ℕ → List NoteRow
  deadlineHit : ℕ → Bool

/-- State threaded through the search stage loop of `_crawl_xiaohongshu`
(browser_scraper.py lines 1374-1420). -/
structure SearchStageState where
  calls : ℕ
  errors : List String
  searchApiNotes : List NoteRow
  step : ℕ
  searchStageDone : Bool
deriving Repr

/-- The inner entry-URL loop (browser_scraper.py lines 1381-1416): per entry,
check the hard deadline (breaking the entry loop when passed), navigate, run
one signed search invocation, join capture tasks, extend the harvested pool
with captures and the invocation's rows, and finish the stage as soon as the
pool is non-empty. -/
def runSearchEntries (env : SearchStageEnv) (mode : String) (maxNotes : ℤ) :
    ℕ → SearchStageState → SearchStageState
  | 0, st => st
  | n + 1, st =>
      if st.searchStageDone then st
      else if env.deadlineHit st.step then { st with step := st.step + 1 }
      else
        let r := fetchXhsSearchNotesSigned env.oracle mode maxNotes st.calls
        let captured := env.capture st.step
        let pool := st.searchApiNotes ++ captured ++ r.rows
        let st2 : SearchStageState :=
          { calls := r.calls, errors := st.errors ++ r.errors,
            searchApiNotes := pool, step := st.step + 1,
            searchStageDone := decide (pool ≠ []) }
        runSearchEntries env mode maxNotes n st2

/-- The outer round loop (browser_scraper.py line 1380): 2 rounds in quick
mode, 3 in deep mode, 2 entry URLs per round, stopping once a round produced
a non-empty pool. -/
def runSearchRounds (env : SearchStageEnv) (mode : String) (maxNotes : ℤ) :
    ℕ → SearchStageState → SearchStageState
  | 0, st => st
  | n + 1, st =>
      if st.searchStageDone then st
      else runSearchRounds env mode maxNotes n
        (runSearchEntries env mode maxNotes 2 st)

/-- The whole search stage of one `_crawl_xiaohongshu` job. -/
def searchStageRun (env : SearchStageEnv) (mode : String) (maxNotes : ℤ) :
    SearchStageState :=
  let rounds : ℕ := if mode = "quick" then 2 else 3
  runSearchRounds env mode maxNotes rounds
    { calls := 0, errors := [], searchApiNotes := [], step := 0,
      searchStageDone := false }

/-- Scenario B environment: every signed search request answers with the
hard-fail protocol code 300011 (account abnormal) and nothing is captured
from page traffic. -/
def allHardFail300011Env : SearchStageEnv :=
  { oracle := fun _ =>
      { err := "api_error_300011:account abnormal", batch := [], hasMore := none },
    capture := fun _ => [],
    deadlineHit := fun _ => false }

theorem xhsIsHardFail_ne_empty (e : String) (h : xhsIsHardFail e = true) :
    e ≠ "" := by
  intro he
  subst he
  exact absurd h (by decide)

/-- C2 counterexample: with every signed search call answering the hard-fail
code 300011, a quick-mode job issues 4 signed search requests in total (one
per invocation, re-invoked for each of 2 rounds x 2 entry URLs), not 1 as the
claim "zero further signed-search calls after the first hard fail" requires. -/
theorem signed_search_refires_after_hard_fail :
    (searchStageRun allHardFail300011Env "quick" 6).calls = 4
    ∧ 1 < (searchStageRun allHardFail300011Env "quick" 6).calls := by
  refine ⟨by decide, by decide⟩

theorem signedPagesLoop_hard_fail (oracle : ℕ → SignedSearchResp)
    (sort : String) (poolTarget n : ℕ) (st : SignedFetchState)
    (h : xhsIsHardFail (oracle st.calls).err = true) :
    signedPagesLoop oracle sort poolTarget (n + 1) st =
      ({ st with calls := st.calls + 1, errors := st.errors ++ ["search:" ++ sort ++ ":" ++ (oracle st.calls).err] }, true) := by
  have hne : (oracle st.calls).err ≠ "" := xhsIsHardFail_ne_empty _ h
  simp [signedPagesLoop, hne, h]

/-- C2 amended: once a signed structured-search call returns a hard-fail
protocol code, the current `_fetch_xhs_search_notes_signed` invocation issues
no further signed requests — it returns at once, in every mode. The
orchestrator however re-invokes signed search for each remaining search round
and entry URL rather than skipping them: in quick mode (2 rounds x 2 entry
URLs) a job whose every signed call answers the hard-fail code 300011 issues
one request per invocation and 4 in total before reaching the DOM-scan
fallback. -/
theorem signed_search_hard_fail_stops_invocation :
    (∀ (oracle : ℕ → SignedSearchResp) (mode : String) (maxNotes : ℤ)
        (startCalls : ℕ),
      xhsIsHardFail (oracle startCalls).err = true →
      (fetchXhsSearchNotesSigned oracle mode maxNotes startCalls).calls
        = startCalls + 1)
    ∧ (searchStageRun allHardFail300011Env "quick" 6).calls = 2 * 2 := by
  constructor
  · intro oracle mode maxNotes startCalls h
    by_cases hm : mode = "quick"
    · subst hm
      have h1 := signedPagesLoop_hard_fail oracle "popularity_descending"
        (noteCandidatePoolSize maxNotes "quick") 0
        { rows := [], seen := [], errors := [], calls := startCalls } h
      norm_num at h1
      simp [fetchXhsSearchNotesSigned, xhsSearchSorts, signedSortsLoop, h1]
    · have h2 := signedPagesLoop_hard_fail oracle "popularity_descending"
        (noteCandidatePoolSize maxNotes mode) 1
        { rows := [], seen := [], errors := [], calls := startCalls } h
      norm_num at h2
      simp [fetchXhsSearchNotesSigned, xhsSearchSorts, hm, signedSortsLoop, h2]
  · decide

theorem signed_search_hard_fail_witness :
    (fetchXhsSearchNotesSigned allHardFail300011Env.oracle "quick" 6 0).calls
      = 0 + 1 :=
  signed_search_hard_fail_stops_invocation.1 allHardFail300011Env.oracle
    "quick" 6 0 (by decide)

/-- A comment row as extracted by `_extract_comment_candidates_from_payload`
(browser_scraper.py lines 988-1003). -/
structure CommentRow where
  id : String
  content : String
  likeCount : ℤ
  userNickname : String
  ipLocation : String
  publishedAt : Option String
deriving DecidableEq, Repr

/-- A pagination hint as produced by `_extract_comment_pagination_hints`
(browser_scraper.py lines 1041-1044): cursor-shaped fields and a boolean-like
has-more flag. -/
structure RawPageHint where
  cursorValues : List (String × String)
  hasMore : Option Bool
deriving DecidableEq, Repr

/-- A hint handed to `_collect_paginated_comments`, carrying the source URL it
was captured from (browser_scraper.py lines 1721-1725). -/
structure PageHint where
  url : String
  cursorValues : List (String × String)
  hasMore : Option Bool
deriving DecidableEq, Repr

/-- A queued continuation target (browser_scraper.py lines 1082-1085). -/
structure QueueItem where
  url : String
  cursorValues : List (String × String)
deriving DecidableEq, Repr

/-- One successfully fetched and parsed continuation page, carrying the
outputs of the two pure extraction walks applied to its JSON body. -/
structure FetchedPage where
  comments : List CommentRow
  hints : List RawPageHint
deriving DecidableEq, Repr

/-- The queue entry built from one hint: the source URL plus the cursor map
with empty values dropped (browser_scraper.py lines 1082-1085, 1132-1135). -/
def hintQueueItem (baseUrl : String) (cursorValues : List (String × String)) :
    QueueItem :=
  { url := baseUrl, cursorValues := cursorValues.filter fun kv => kv.2 ≠ "" }

/-- Initial queue construction of `_collect_paginated_comments`
(browser_scraper.py lines 1071-1087): skip hints already marked exhausted,
hints with no cursor values and hints with no URL; append, then stop once the
queue holds 16 entries (append before cap check, as in the source). -/
def initCommentQueue : List PageHint → List QueueItem → List QueueItem
  | [], q => q
  | h :: rest, q =>
      if h.hasMore = some false then initCommentQueue rest q
      else if h.cursorValues.isEmpty then initCommentQueue rest q
      else if h.url = "" then initCommentQueue rest q
      else if 16 ≤ (q ++ [hintQueueItem h.url h.cursorValues]).length then
        q ++ [hintQueueItem h.url h.cursorValues]
      else initCommentQueue rest (q ++ [hintQueueItem h.url h.cursorValues])

/-- Follow-up hint enqueueing of `_collect_paginated_comments`
(browser_scraper.py lines 1125-1137): same filtering, bound at 24 queued
entries (append before cap check, as in the source). -/
def enqueueHints (baseUrl : String) :
    List RawPageHint → List QueueItem → List QueueItem
  | [], q => q
  | h :: rest, q =>
      if h.hasMore = some false then enqueueHints baseUrl rest q
      else if h.cursorValues.isEmpty then enqueueHints baseUrl rest q
      else if 24 ≤ (q ++ [hintQueueItem baseUrl h.cursorValues]).length then
        q ++ [hintQueueItem baseUrl h.cursorValues]
      else enqueueHints baseUrl rest (q ++ [hintQueueItem baseUrl h.cursorValues])

theorem enqueueHints_length_le_max (baseUrl : String) (hs : List RawPageHint) :
    ∀ q : List QueueItem,
      (enqueueHints baseUrl hs q).length ≤ max (q.length + 1) 24 := by
  induction hs with
  | nil =>
      intro q
      rw [enqueueHints]
      exact le_trans (Nat.le_succ _) (le_max_left _ _)
  | cons h rest ih =>
      intro q
      rw [enqueueHints]
      split_ifs with h1 h2 h3
      · exact ih q
      · exact ih q
      · rw [List.length_append]
        exact le_max_left _ _
      · refine le_trans (ih _) ?_
        rw [List.length_append] at h3 ⊢
        have hq : q.length + 1 < 24 := by
          simpa using Nat.lt_of_not_le h3
        rw [max_eq_right (by omega), max_eq_right (by omega)]

theorem enqueueHints_length_le (baseUrl : String) (hs : List RawPageHint)
    (q : List QueueItem) :
    (enqueueHints baseUrl hs q).length ≤ q.length + 25 := by
  refine le_trans (enqueueHints_length_le_max baseUrl hs q) ?_
  exact max_le (by omega) (by omega)

/-- The per-page dedup-append loop of `_collect_paginated_comments`
(browser_scraper.py lines 1109-1119): normalize each comment's content,
filter by the comment-validity predicate (`_is_valid_comment_text`, passed as
a parameter), dedup on the first 180 characters of the normalized text within
the shared seen-key set, and stop once the target count is reached (append
before the cap check, as in the source). -/
def addCommentRows (validText : String → Bool) (maxComments : ℕ) :
    List CommentRow → List CommentRow → List String →
    List CommentRow × List String
  | [], collected, seen => (collected, seen)
  | item :: rest, collected, seen =>
      if ¬ validText (stripStr item.content) then
        addCommentRows validText maxComments rest collected seen
      else if seen.contains (String.mk ((stripStr item.content).data.take 180)) then
        addCommentRows validText maxComments rest collected seen
      else if maxComments ≤ (collected ++ [item]).length then
        (collected ++ [item],
         seen ++ [String.mk ((stripStr item.content).data.take 180)])
      else
        addCommentRows validText maxComments rest (collected ++ [item])
          (seen ++ [String.mk ((stripStr item.content).data.take 180)])

/-- The cursor-URL guard of the loop body (browser_scraper.py lines
1095-1096 together with the empty-input guard of `_build_cursor_url` at lines
1050-1052): the empty string when the base URL or cursor map is empty, else
the merged URL (the query-string merge itself is the `buildUrl` parameter). -/
def nextCursorUrl (buildUrl : String → List (String × String) → String)
    (current : QueueItem) : String :=
  if current.url = "" ∨ current.cursorValues.isEmpty then ""
  else buildUrl current.url current.cursorValues

/-- The continuation-following loop of `_collect_paginated_comments`
(browser_scraper.py lines 1089-1137): while the queue is non-empty, the page
count is under `maxPages` and the target count is unmet, pop the head, build
its cursor URL, skip it when empty or already visited, fetch it (a failed
fetch consumes the entry without counting a page), append the page's comments
with dedup, and enqueue its follow-up hints. Returns the collected comments
and the number of pages successfully fetched. Totality is by well-founded
recursion on queue length plus 25 times the remaining page budget — the
termination guarantee behind the claim. -/
def collectPaginatedLoop (server : String → Option FetchedPage)
    (buildUrl : String → List (String × String) → String)
    (validText : String → Bool) (maxComments maxPages : ℕ) :
    List QueueItem → List String → List String → List CommentRow → ℕ →
    List CommentRow × ℕ
  | [], _, _, collected, pages => (collected, pages)
  | current :: rest, visited, seen, collected, pages =>
      if h : pages < maxPages ∧ collected.length < maxComments then
        if nextCursorUrl buildUrl current = ""
            ∨ visited.contains (nextCursorUrl buildUrl current) then
          collectPaginatedLoop server buildUrl validText maxComments maxPages
            rest visited seen collected pages
        else
          match server (nextCursorUrl buildUrl current) with
          | none =>
              collectPaginatedLoop server buildUrl validText maxComments maxPages
                rest (visited ++ [nextCursorUrl buildUrl current]) seen collected
                pages
          | some page =>
              match addCommentRows validText maxComments page.comments collected
                  seen with
              | (collected2, seen2) =>
                  if maxComments ≤ collected2.length then (collected2, pages + 1)
                  else
                    collectPaginatedLoop server buildUrl validText maxComments
                      maxPages
                      (enqueueHints (nextCursorUrl buildUrl current) page.hints
                        rest)
                      (visited ++ [nextCursorUrl buildUrl current]) seen2
                      collected2 (pages + 1)
      else (collected, pages)
termination_by q v s c pages => q.length + 25 * (maxPages - pages)
decreasing_by
  · simp_wf
  · simp_wf
  · simp_wf
    have hb := enqueueHints_length_le (nextCursorUrl buildUrl current)
      page.hints rest
    omega

/-- `_collect_paginated_comments` (browser_scraper.py lines 1061-1139): guard
the degenerate limits, build the initial queue (cap 16) and drain it. The
URL-merging of `_build_cursor_url` is passed in as `buildUrl`; a run returns
the collected comments and the count of successfully fetched pages. -/
def collectPaginatedComments (server : String → Option FetchedPage)
    (buildUrl : String → List (String × String) → String)
    (validText : String → Bool) (pageHints : List PageHint)
    (maxComments maxPages : ℕ) (seenKeys : List String) :
    List CommentRow × ℕ :=
  if maxComments = 0 ∨ maxPages = 0 then ([], 0)
  else
    collectPaginatedLoop server buildUrl validText maxComments maxPages
      (initCommentQueue pageHints []) [] seenKeys [] 0

theorem collectPaginatedLoop_pages_le (server : String → Option FetchedPage)
    (buildUrl : String → List (String × String) → String)
    (validText : String → Bool) (maxComments maxPages : ℕ) :
    ∀ (queue : List QueueItem) (visited seen : List String)
      (collected : List CommentRow) (pages : ℕ), pages ≤ maxPages →
      (collectPaginatedLoop server buildUrl validText maxComments maxPages
        queue visited seen collected pages).2 ≤ maxPages := by
  intro queue visited seen collected pages
  induction queue, visited, seen, collected, pages using
    collectPaginatedLoop.induct server buildUrl validText maxComments maxPages with
  | case1 visited seen collected pages =>
      intro hp
      simpa [collectPaginatedLoop] using hp
  | case2 current rest visited seen collected pages h hskip ih =>
      intro hp
      rw [collectPaginatedLoop]
      rw [dif_pos h, if_pos hskip]
      exact ih hp
  | case3 current rest visited seen collected pages h hskip hserver ih =>
      intro hp
      rw [collectPaginatedLoop]
      rw [dif_pos h, if_neg hskip]
      simp only [hserver]
      exact ih hp
  | case4 current rest visited seen collected pages h hskip page hserver
      collected2 seen2 hadd hfull =>
      intro _
      rw [collectPaginatedLoop]
      rw [dif_pos h, if_neg hskip]
      simp only [hserver, hadd]
      rw [if_pos hfull]
      exact h.1
  | case5 current rest visited seen collected pages h hskip page hserver
      collected2 seen2 hadd hfull ih =>
      intro _
      rw [collectPaginatedLoop]
      rw [dif_pos h, if_neg hskip]
      simp only [hserver, hadd]
      rw [if_neg hfull]
      exact ih h.1
  | case6 current rest visited seen collected pages h =>
      intro hp
      rw [collectPaginatedLoop]
      rw [dif_neg h]
      exact hp

/-- A server that always answers with an empty comment list, `has_more = true`
and the same constant cursor — the pathological scenario of the claim. -/
def constCursorServer : String → Option FetchedPage :=
  fun _ => some { comments := [], hints := [{ cursorValues := [("cursor", "1")], hasMore := some true }] }

/-- A URL builder that merges the constant cursor into the query string the
way `_build_cursor_url` does: re-applying the same cursor to a URL already
carrying it reproduces the same URL. -/
def constCursorBuildUrl : String → List (String × String) → String :=
  fun base _ => if strContains base "cursor=1" then base else base ++ "?cursor=1"

/-- C9: the paginated comment collector is a total function — its drain loop
is defined by well-founded recursion on queue length plus remaining page
budget, so it terminates on every input — and for every server behavior, URL
builder, comment-validity predicate, hint list, limits and pre-seeded dedup
keys, the number of successfully fetched pages never exceeds `maxPages`.
In the scenario where every response reports `has_more = true` with the same
constant cursor, the visited-URL set additionally stops the loop after a
single page fetch. -/
theorem collectPaginatedComments_page_bound :
    (∀ (server : String → Option FetchedPage)
       (buildUrl : String → List (String × String) → String)
       (validText : String → Bool) (pageHints : List PageHint)
       (maxComments maxPages : ℕ) (seenKeys : List String),
      (collectPaginatedComments server buildUrl validText pageHints
        maxComments maxPages seenKeys).2 ≤ maxPages)
    ∧ collectPaginatedComments constCursorServer constCursorBuildUrl
        (fun _ => true)
        [{ url := "u", cursorValues := [("cursor", "1")], hasMore := some true }]
        10 5 [] = ([], 1) := by
  constructor
  · intro server buildUrl validText pageHints maxComments maxPages seenKeys
    rw [collectPaginatedComments]
    by_cases hdeg : maxComments = 0 ∨ maxPages = 0
    · rw [if_pos hdeg]
      exact Nat.zero_le _
    · rw [if_neg hdeg]
      exact collectPaginatedLoop_pages_le server buildUrl validText maxComments
        maxPages _ _ _ _ 0 (Nat.zero_le _)
  · rw [collectPaginatedComments]
    rw [if_neg (by decide)]
    rw [show initCommentQueue
        [{ url := "u", cursorValues := [("cursor", "1")], hasMore := some true }] [] =
        [{ url := "u", cursorValues := [("cursor", "1")] }] from by decide]
    rw [collectPaginatedLoop]
    rw [dif_pos (by decide)]
    rw [show nextCursorUrl constCursorBuildUrl { url := "u", cursorValues := [("cursor", "1")] } = "u?cursor=1" from by decide]
    rw [if_neg (by decide)]
    rw [show constCursorServer "u?cursor=1" = some { comments := [], hints := [{ cursorValues := [("cursor", "1")], hasMore := some true }] } from rfl]
    simp only
    rw [show addCommentRows (fun _ => true) 10 ([] : List CommentRow) [] [] = ([], []) from by decide]
    simp only
    rw [if_neg (by decide)]
    rw [show enqueueHints "u?cursor=1" [{ cursorValues := [("cursor", "1")], hasMore := some true }] ([] : List QueueItem) = [{ url := "u?cursor=1", cursorValues := [("cursor", "1")] }] from by decide]
    rw [collectPaginatedLoop]
    rw [dif_pos (by decide)]
    rw [show nextCursorUrl constCursorBuildUrl { url := "u?cursor=1", cursorValues := [("cursor", "1")] } = "u?cursor=1" from by decide]
    rw [if_pos (by decide :
      ("u?cursor=1" = ""
        ∨ (([] ++ ["u?cursor=1"] : List String).contains "u?cursor=1") = true))]
    rw [collectPaginatedLoop]

/-- A normalized note as appended to the result (models.py
`CrawlerNormalizedNote`, fields used by `_crawl_xiaohongshu`). -/
structure CrawlNote where
  id : String
  title : String
  desc : String
  likedCount : ℤ
  commentsCount : ℤ
  collectedCount : ℤ
  url : String
deriving DecidableEq, Repr

/-- A normalized comment as appended to the result (models.py
`CrawlerNormalizedComment`). -/
structure NormComment where
  id : String
  content : String
  likeCount : ℤ
  userNickname : String
  ipLocation : String
  publishedAt : Option String
  parentId : Option String
deriving DecidableEq, Repr

/-- Conversion of one raw comment row into the normalized record appended by
`_crawl_xiaohongshu` (browser_scraper.py lines 1665-1677 and 1955-1967): the
id falls back to noteId-c-index and the parent is the note. -/
def mkNormComment (noteId : String) (idx : ℕ) (c : CommentRow) : NormComment :=
  { id := if c.id = "" then noteId ++ "-c-" ++ toString idx else c.id,
    content := c.content, likeCount := c.likeCount,
    userNickname := c.userNickname, ipLocation := c.ipLocation,
    publishedAt := c.publishedAt, parentId := some noteId }

/-- The enumeration-and-append of a note's comment batch. -/
def appendNormComments (noteId : String) (cs : List CommentRow) :
    List NormComment :=
  cs.enum.map fun ic => mkNormComment noteId ic.1 ic.2

/-- Stable insertion of one row into a liked-count-descending list (placed
after existing rows with an equal count). -/
def insertByLikes (c : CommentRow) : List CommentRow → List CommentRow
  | [] => [c]
  | x :: xs => if x.likeCount < c.likeCount then c :: x :: xs
    else x :: insertByLikes c xs

/-- The stable descending sort by like count applied to comment batches
(`rows.sort(key=like_count, reverse=True)`, browser_scraper.py lines 1641 and
1819). -/
def sortByLikesDesc : List CommentRow → List CommentRow
  | [] => []
  | x :: xs => insertByLikes x (sortByLikesDesc xs)

/-- The dedup-append of DOM-evaluated detail comments into the merged batch
(browser_scraper.py lines 1890-1909): normalize, validate, dedup on the first
180 characters, wrap as a bare comment record, stop at the limit. -/
def mkDetailComment (text : String) : CommentRow :=
  { id := "", content := text, likeCount := 0, userNickname := "",
    ipLocation := "", publishedAt := none }

def addDetailComments (validText : String → Bool) (limit : ℕ) :
    List String → List CommentRow → List String →
    List CommentRow × List String
  | [], merged, seen => (merged, seen)
  | raw :: rest, merged, seen =>
      if ¬ validText (stripStr raw) then
        addDetailComments validText limit rest merged seen
      else if seen.contains (String.mk ((stripStr raw).data.take 180)) then
        addDetailComments validText limit rest merged seen
      else if limit ≤ (merged ++ [mkDetailComment (stripStr raw)]).length then
        (merged ++ [mkDetailComment (stripStr raw)],
         seen ++ [String.mk ((stripStr raw).data.take 180)])
      else
        addDetailComments validText limit rest
          (merged ++ [mkDetailComment (stripStr raw)])
          (seen ++ [String.mk ((stripStr raw).data.take 180)])

/-- `_note_comment_relevance_ok` (browser_scraper.py lines 214-221): the
source unconditionally returns True; the arguments are kept for fidelity. -/
def noteCommentRelevanceOk (title desc : String) (comments : List CommentRow)
    (queryTerms : List String) : Bool :=
  true

/-- The environment one candidate iteration observes: clock checks at the
points the source reads the clock, and the network- and browser-derived data
(preflight comments, captured/paginated/direct comment batches, the evaluated
detail), plus the exception outcomes of the fallible browser steps. -/
structure NoteEnv where
  deadlineTopHit : Bool
  timeboxLow : Bool
  preflight : List CommentRow
  preflightError : String
  nearEnd : Bool
  navException : Bool
  opened : Bool
  deadlineAfterNav : Bool
  noteReady : Bool
  deadlineAfterPanel : Bool
  scrollDeadlineHit : Bool
  captured : List CommentRow
  paginated : List CommentRow
  direct : List CommentRow
  directError : String
  detailDesc : String
  detailComments : List String
  bodyException : Bool
deriving Repr

/-- Accumulated state of the per-candidate loop of `_crawl_xiaohongshu`. -/
structure CrawlLoopState where
  notes : List CrawlNote
  comments : List NormComment
  emptyStreak : ℤ
  errors : List String
deriving Repr

/-- The mode- and settings-derived parameters of the per-candidate loop
(browser_scraper.py lines 1545-1566). -/
structure CrawlLoopParams where
  limitsNotes : ℤ
  limitsComments : ℤ
  minNotesReturn : ℤ
  minCommentsReturn : ℤ
  maxEmptyCommentNotes : ℤ
deriving Repr

/-- Conditionally record one error string (the pattern
`if cond: xhs_errors.append(e)` used throughout the loop body). -/
def addErrIf (c : Prop) [Decidable c] (e : String) (st : CrawlLoopState) :
    CrawlLoopState :=
  if c then { st with errors := st.errors ++ [e] } else st

/-- Append one accepted note together with its normalized comment batch and
reset the empty streak (browser_scraper.py lines 1652-1677 and 1941-1967). -/
def pushNote (st : CrawlLoopState) (note : CrawlNote) (noteId : String)
    (cs : List CommentRow) : CrawlLoopState :=
  { st with
      notes := st.notes ++ [note],
      comments := st.comments ++ appendNormComments noteId cs,
      emptyStreak := 0 }

/-- Record an error and grow the empty-comment streak (the skip paths at
browser_scraper.py lines 1924-1927 and 1936-1939). -/
def bumpUnproductive (st : CrawlLoopState) (e : String) : CrawlLoopState :=
  { st with errors := st.errors ++ [e], emptyStreak := st.emptyStreak + 1 }

/-- The note record appended by the loop (browser_scraper.py lines 1652-1662
and 1941-1951). -/
def mkCrawlNote (item : NoteRow) (noteId title desc : String) (ccount : ℤ) :
    CrawlNote :=
  { id := noteId, title := title, desc := desc, likedCount := item.likedCount,
    commentsCount := ccount, collectedCount := item.collectedCount,
    url := item.url }

/-- The tail of the note-page branch once the merged comment batch is known
(browser_scraper.py lines 1910-1967): when the merge is empty, synthesize a
single fallback comment from the note body when its text is valid, else skip
the candidate growing the empty streak; then run the (constant-true)
relevance check and append the note with its non-empty batch. -/
def noteStepFinish (validText : String → Bool) (queryTerms : List String)
    (trusted : Bool) (noteId : String) (item : NoteRow)
    (detailTitle detailDesc : String) (merged : List CommentRow)
    (st4 : CrawlLoopState) : CrawlLoopState × Bool :=
  if merged = [] then
    let fallbackDesc := stripStr detailDesc
    if validText fallbackDesc then
      let fbRow := { mkDetailComment (String.mk (fallbackDesc.data.take 120)) with
        userNickname := "note_desc_fallback" }
      if ¬ trusted ∧ noteCommentRelevanceOk detailTitle detailDesc [fbRow] queryTerms = false then
        (bumpUnproductive st4 ("irrelevant_note:" ++ noteId), true)
      else
        (pushNote st4
          (mkCrawlNote item noteId detailTitle detailDesc
            (max (1 : ℤ) item.commentsCount))
          noteId [fbRow], true)
    else
      (bumpUnproductive st4 ("no_comments_extracted:" ++ noteId), true)
  else
    if ¬ trusted ∧ noteCommentRelevanceOk detailTitle detailDesc merged queryTerms = false then
      (bumpUnproductive st4 ("irrelevant_note:" ++ noteId), true)
    else
      (pushNote st4
        (mkCrawlNote item noteId detailTitle detailDesc
          (max (merged.length : ℤ) item.commentsCount))
        noteId merged, true)

/-- The note-page branch of one candidate iteration (browser_scraper.py lines
1680-1967): the near-deadline and exception early exits, the deadline breaks
after navigation and around the comment panel, then the merge of captured,
paginated and (when still short) direct comments, the sort, the two dedup
phases and the finishing tail. The boolean result is true for `continue` and
false for `break`. -/
def noteStepPage (validText : String → Bool) (queryTerms : List String)
    (p : CrawlLoopParams) (trusted : Bool) (noteId : String) (item : NoteRow)
    (env : NoteEnv) (st1 : CrawlLoopState) : CrawlLoopState × Bool :=
  if env.nearEnd then
    ({ st1 with errors := st1.errors ++ ["crawl_deadline_near_end"] }, false)
  else if env.navException then (st1, true)
  else if ¬ env.opened then (st1, true)
  else if env.deadlineAfterNav then
    ({ st1 with errors := st1.errors ++ ["crawl_deadline_reached"] }, false)
  else
    let st2 := addErrIf (¬ env.noteReady) ("note_not_ready:" ++ noteId) st1
    if env.deadlineAfterPanel then
      ({ st2 with errors := st2.errors ++ ["crawl_deadline_reached"] }, false)
    else
      let st3 := addErrIf env.scrollDeadlineHit "crawl_deadline_reached" st2
      if env.bodyException then (st3, true)
      else
        let noteApi0 := env.captured ++ env.paginated
        let withDirect := if (noteApi0.length : ℤ) < p.limitsComments then
            noteApi0 ++ env.direct
          else noteApi0
        let st4 := addErrIf
          ((noteApi0.length : ℤ) < p.limitsComments ∧ env.directError ≠ "")
          ("comment:" ++ env.directError) st3
        let sorted := sortByLikesDesc withDirect
        let limitN : ℕ := p.limitsComments.toNat
        let phase1 := addCommentRows validText limitN sorted [] []
        let merged2 := if (phase1.1.length : ℤ) < p.limitsComments then
            addDetailComments validText limitN env.detailComments phase1.1 phase1.2
          else phase1
        let detailDesc := if env.detailDesc ≠ "" then env.detailDesc else item.desc
        let detailTitle := String.mk (item.title.data.take 80)
        noteStepFinish validText queryTerms trusted noteId item detailTitle
          detailDesc merged2.1 st4

/-- The body of one candidate iteration of `_crawl_xiaohongshu`
(browser_scraper.py lines 1596-1972), with the browser and network supplying
`env`: skip candidates without a URL, run the preflight branch when an xsec
token is present and the signed comment preflight produced comments
(appending the note with all of them), and otherwise fall through to the
note-page branch. The boolean result is true for `continue` and false for
`break`. -/
def noteStep (validText : String → Bool) (queryTerms : List String)
    (p : CrawlLoopParams) (item : NoteRow) (env : NoteEnv)
    (st : CrawlLoopState) : CrawlLoopState × Bool :=
  if item.url = "" then (st, true)
  else
    let trusted := strStartsWith item.source "api_signed:"
    let noteId := item.id
    let preflight := if item.xsecToken ≠ "" then env.preflight else []
    let st1 := addErrIf (item.xsecToken ≠ "" ∧ env.preflightError ≠ "")
      ("comment_preflight:" ++ env.preflightError) st
    if preflight ≠ [] then
      let sorted := sortByLikesDesc preflight
      let preTitle := String.mk (item.title.data.take 80)
      if ¬ trusted ∧ noteCommentRelevanceOk preTitle item.desc sorted queryTerms = false then
        ({ st1 with errors := st1.errors ++ ["irrelevant_preflight_note:" ++ noteId] }, true)
      else
        (pushNote st1
          (mkCrawlNote item noteId preTitle item.desc
            (max (sorted.length : ℤ) item.commentsCount))
          noteId sorted, true)
    else noteStepPage validText queryTerms p trusted noteId item env st1

/-- The per-candidate loop of `_crawl_xiaohongshu` (browser_scraper.py lines
1577-1972) over the ranked candidates paired with their environments: the
head checks mirror lines 1578-1595 (early return on met minima, timebox with
met note minimum, hard deadline, caller note cap, and unproductive-query
abort), then the body runs and either continues or breaks. -/
def crawlNoteLoop (validText : String → Bool) (queryTerms : List String)
    (p : CrawlLoopParams) :
    List (NoteRow × NoteEnv) → CrawlLoopState → CrawlLoopState
  | [], st => st
  | (item, env) :: rest, st =>
      if p.minNotesReturn ≤ (st.notes.length : ℤ)
          ∧ p.minCommentsReturn ≤ (st.comments.length : ℤ) then st
      else if p.minNotesReturn ≤ (st.notes.length : ℤ) ∧ env.timeboxLow then st
      else if env.deadlineTopHit then
        { st with errors := st.errors ++ ["crawl_deadline_reached"] }
      else if max 1 p.limitsNotes ≤ (st.notes.length : ℤ) then st
      else if st.notes = [] ∧ p.maxEmptyCommentNotes ≤ st.emptyStreak then st
      else
        match noteStep validText queryTerms p item env st with
        | (st2, true) => crawlNoteLoop validText queryTerms p rest st2
        | (st2, false) => st2

/-- The platform-level result shape (models.py `CrawlerPlatformResult`,
fields governed by the claim). -/
structure PlatformResult where
  notes : List CrawlNote
  comments : List NormComment
  success : Bool
  error : Option String
deriving Repr

/-- The final assembly of `_crawl_xiaohongshu` (browser_scraper.py lines
1983-1998): success is notes-nonempty, and on failure the error is the
normalized first classified error. -/
def assembleXhsSessionResult (st : CrawlLoopState) : PlatformResult :=
  { notes := st.notes, comments := st.comments,
    success := decide (0 < st.notes.length),
    error := if 0 < st.notes.length then none
      else some (xhsNormalizeError st.errors) }

/-- One `_crawl_xiaohongshu` run from ranked candidates to the platform
result: the loop starts with no notes and no comments, with the search-stage
errors carried in. -/
def runXhsSessionCrawl (validText : String → Bool) (queryTerms : List String)
    (p : CrawlLoopParams) (initialErrors : List String)
    (candidates : List (NoteRow × NoteEnv)) : PlatformResult :=
  assembleXhsSessionResult (crawlNoteLoop validText queryTerms p candidates
    { notes := [], comments := [], emptyStreak := 0, errors := initialErrors })

/-- The final assembly of `XiaohongshuAdapter.crawl` (xiaohongshu_adapter.py
lines 183-207): success requires at least one note and one comment; on
failure the error is the session error, patched by the two fallback reasons,
or the generic crawl-empty code. -/
def assembleAdapterResult (notes : List CrawlNote) (comments : List NormComment)
    (sessionError : String) (hasTikhubToken : Bool) : PlatformResult :=
  let success := 0 < notes.length ∧ 0 < comments.length
  let sessionError1 := if 0 < notes.length ∧ comments.length = 0 ∧ sessionError = "" then
      "notes_found_but_comments_empty"
    else sessionError
  let sessionError2 := if ¬ hasTikhubToken ∧ ¬ success ∧ sessionError1 = "" then
      "no_tikhub_token_and_no_user_session"
    else sessionError1
  { notes := notes, comments := comments, success := decide success,
    error := if success then none
      else some (if sessionError2 ≠ "" then sessionError2 else "crawl_empty") }

theorem insertByLikes_length (c : CommentRow) (l : List CommentRow) :
    (insertByLikes c l).length = l.length + 1 := by
  induction l with
  | nil => rfl
  | cons x xs ih =>
      unfold insertByLikes
      split_ifs <;> simp [ih]

theorem sortByLikesDesc_length (l : List CommentRow) :
    (sortByLikesDesc l).length = l.length := by
  induction l with
  | nil => rfl
  | cons x xs ih => simp [sortByLikesDesc, insertByLikes_length, ih]

theorem sortByLikesDesc_ne_nil (l : List CommentRow) (h : l ≠ []) :
    sortByLikesDesc l ≠ [] := by
  intro he
  apply h
  have hlen := sortByLikesDesc_length l
  rw [he] at hlen
  exact List.length_eq_zero.mp hlen.symm

theorem appendNormComments_ne_nil (noteId : String) (cs : List CommentRow)
    (h : cs ≠ []) : appendNormComments noteId cs ≠ [] := by
  cases cs with
  | nil => exact absurd rfl h
  | cons a l => simp [appendNormComments, List.enum_cons]

theorem classifyXhsError_ne_empty (s e : String)
    (h : classifyXhsError s = some e) : e ≠ "" := by
  unfold classifyXhsError at h
  split_ifs at h <;>
    first
      | exact Option.noConfusion h
      | (injection h with h2; subst h2; decide)

theorem xhsNormalizeError_ne_empty (errors : List String) :
    xhsNormalizeError errors ≠ "" := by
  induction errors with
  | nil => decide
  | cons a rest ih =>
      unfold xhsNormalizeError at ih ⊢
      cases hc : classifyXhsError a with
      | some e =>
          rw [List.findSome?_cons, hc]
          exact classifyXhsError_ne_empty a e hc
      | none =>
          rw [List.findSome?_cons, hc]
          exact ih


theorem addErrIf_notes (c : Prop) [Decidable c] (e : String)
    (st : CrawlLoopState) : (addErrIf c e st).notes = st.notes := by
  unfold addErrIf
  split_ifs <;> rfl

theorem addErrIf_comments (c : Prop) [Decidable c] (e : String)
    (st : CrawlLoopState) : (addErrIf c e st).comments = st.comments := by
  unfold addErrIf
  split_ifs <;> rfl

theorem pushNote_comments_ne_nil (st : CrawlLoopState) (note : CrawlNote)
    (noteId : String) (cs : List CommentRow) (h : cs ≠ []) :
    (pushNote st note noteId cs).comments ≠ [] := by
  intro he
  rcases List.append_eq_nil.mp he with ⟨_, h2⟩
  exact appendNormComments_ne_nil noteId cs h h2

theorem noteStepFinish_preserves (validText : String → Bool)
    (queryTerms : List String) (trusted : Bool) (noteId : String)
    (item : NoteRow) (detailTitle detailDesc : String)
    (merged : List CommentRow) (st4 : CrawlLoopState)
    (h : st4.notes ≠ [] → st4.comments ≠ []) :
    (noteStepFinish validText queryTerms trusted noteId item detailTitle
      detailDesc merged st4).1.notes ≠ [] →
    (noteStepFinish validText queryTerms trusted noteId item detailTitle
      detailDesc merged st4).1.comments ≠ [] := by
  unfold noteStepFinish
  dsimp only
  split_ifs <;> intro hn <;>
    first
      | exact h hn
      | exact pushNote_comments_ne_nil _ _ _ _ (by first | assumption | simp)

theorem noteStepPage_preserves (validText : String → Bool)
    (queryTerms : List String) (p : CrawlLoopParams) (trusted : Bool)
    (noteId : String) (item : NoteRow) (env : NoteEnv) (st1 : CrawlLoopState)
    (h : st1.notes ≠ [] → st1.comments ≠ []) :
    (noteStepPage validText queryTerms p trusted noteId item env st1).1.notes ≠ [] →
    (noteStepPage validText queryTerms p trusted noteId item env st1).1.comments ≠ [] := by
  unfold noteStepPage
  dsimp only
  split_ifs <;>
    first
      | (intro hn
         have hst := h (by simpa [addErrIf_notes] using hn)
         simpa [addErrIf_comments] using hst)
      | (refine noteStepFinish_preserves _ _ _ _ _ _ _ _ _ ?_
         intro hn
         have hst := h (by simpa [addErrIf_notes] using hn)
         simpa [addErrIf_comments] using hst)

theorem noteStep_preserves (validText : String → Bool)
    (queryTerms : List String) (p : CrawlLoopParams) (item : NoteRow)
    (env : NoteEnv) (st : CrawlLoopState)
    (h : st.notes ≠ [] → st.comments ≠ []) :
    (noteStep validText queryTerms p item env st).1.notes ≠ [] →
    (noteStep validText queryTerms p item env st).1.comments ≠ [] := by
  unfold noteStep
  dsimp only
  split_ifs <;>
    first
      | (intro _
         exact pushNote_comments_ne_nil _ _ _ _
           (sortByLikesDesc_ne_nil _ (by assumption)))
      | (intro hn
         have hst := h (by simpa [addErrIf_notes] using hn)
         simpa [addErrIf_comments] using hst)
      | (refine noteStepPage_preserves _ _ _ _ _ _ _ _ ?_
         intro hn
         have hst := h (by simpa [addErrIf_notes] using hn)
         simpa [addErrIf_comments] using hst)

theorem crawlNoteLoop_preserves (validText : String → Bool)
    (queryTerms : List String) (p : CrawlLoopParams) :
    ∀ (candidates : List (NoteRow × NoteEnv)) (st : CrawlLoopState),
      (st.notes ≠ [] → st.comments ≠ []) →
      ((crawlNoteLoop validText queryTerms p candidates st).notes ≠ [] →
       (crawlNoteLoop validText queryTerms p candidates st).comments ≠ []) := by
  intro candidates
  induction candidates with
  | nil =>
      intro st h
      simpa [crawlNoteLoop] using h
  | cons ce rest ih =>
      obtain ⟨item, env⟩ := ce
      intro st h
      rw [crawlNoteLoop]
      split_ifs with h1 h2 h3 h4 h5
      · exact h
      · exact h
      · exact h
      · exact h
      · exact h
      · have hstep := noteStep_preserves validText queryTerms p item env st h
        rcases hns : noteStep validText queryTerms p item env st with ⟨st2, b⟩
        rw [hns] at hstep
        cases b
        · exact hstep
        · exact ih st2 hstep

/-- C1: for the xiaohongshu platform-level results. The session crawl
(`_crawl_xiaohongshu`) reports success only when at least one note was
collected, and every accepted note carries a non-empty comment batch (merged
or synthesized), so a successful result holds at least one note and at least
one comment; on failure its error is `_xhs_normalize_error` of the recorded
errors, which is always a non-empty string. The adapter-level result
(`XiaohongshuAdapter.crawl`) succeeds only with at least one note and one
comment, and on failure carries the session error or a non-empty generic
code. -/
theorem platform_result_success_needs_notes_and_comments :
    (∀ (validText : String → Bool) (queryTerms : List String)
        (p : CrawlLoopParams) (initialErrors : List String)
        (candidates : List (NoteRow × NoteEnv)),
      ((runXhsSessionCrawl validText queryTerms p initialErrors candidates).success = true →
        (runXhsSessionCrawl validText queryTerms p initialErrors candidates).notes ≠ []
        ∧ (runXhsSessionCrawl validText queryTerms p initialErrors candidates).comments ≠ [])
      ∧ ((runXhsSessionCrawl validText queryTerms p initialErrors candidates).success = false →
        ∃ e, (runXhsSessionCrawl validText queryTerms p initialErrors candidates).error = some e
          ∧ e ≠ ""))
    ∧ (∀ (notes : List CrawlNote) (comments : List NormComment)
        (sessionError : String) (hasTok : Bool),
      ((assembleAdapterResult notes comments sessionError hasTok).success = true →
        notes ≠ [] ∧ comments ≠ [])
      ∧ ((assembleAdapterResult notes comments sessionError hasTok).success = false →
        ∃ e, (assembleAdapterResult notes comments sessionError hasTok).error = some e
          ∧ e ≠ "")) := by
  constructor
  · intro validText queryTerms p initialErrors candidates
    constructor
    · intro hs
      simp only [runXhsSessionCrawl, assembleXhsSessionResult] at hs
      have hlen := of_decide_eq_true hs
      have hne := List.length_pos.mp hlen
      simp only [runXhsSessionCrawl, assembleXhsSessionResult]
      exact ⟨hne,
        crawlNoteLoop_preserves validText queryTerms p candidates
          { notes := [], comments := [], emptyStreak := 0, errors := initialErrors }
          (fun hx => absurd rfl hx) hne⟩
    · intro hs
      simp only [runXhsSessionCrawl, assembleXhsSessionResult] at hs ⊢
      have hlen := of_decide_eq_false hs
      rw [if_neg hlen]
      exact ⟨_, rfl, xhsNormalizeError_ne_empty _⟩
  · intro notes comments sessionError hasTok
    constructor
    · intro hs
      simp only [assembleAdapterResult] at hs
      have hc := of_decide_eq_true hs
      exact ⟨List.length_pos.mp hc.1, List.length_pos.mp hc.2⟩
    · intro hs
      simp only [assembleAdapterResult] at hs ⊢
      have hc := of_decide_eq_false hs
      rw [if_neg hc]
      refine ⟨_, rfl, ?_⟩
      split_ifs <;> first | assumption | decide

/-- Concrete fixture: a signed-search candidate with an xsec token whose
preflight produced one comment. -/
def witnessCommentRow : CommentRow :=
  { id := "c1", content := "great note", likeCount := 1, userNickname := "u",
    ipLocation := "", publishedAt := none }

def witnessItem : NoteRow :=
  { id := "n1", url := "https://x/explore/n1", title := "t", desc := "d",
    likedCount := 0, commentsCount := 0, collectedCount := 0,
    source := "api_signed:general", xsecToken := "tok", searchSort := "general" }

def witnessEnv : NoteEnv :=
  { deadlineTopHit := false, timeboxLow := false,
    preflight := [witnessCommentRow], preflightError := "", nearEnd := false,
    navException := false, opened := true, deadlineAfterNav := false,
    noteReady := true, deadlineAfterPanel := false, scrollDeadlineHit := false,
    captured := [], paginated := [], direct := [], directError := "",
    detailDesc := "", detailComments := [], bodyException := false }

def witnessParams : CrawlLoopParams :=
  { limitsNotes := 3, limitsComments := 4, minNotesReturn := 3,
    minCommentsReturn := 12, maxEmptyCommentNotes := 8 }

theorem platform_result_success_witness :
    ((runXhsSessionCrawl (fun _ => true) [] witnessParams []
        [(witnessItem, witnessEnv)]).notes ≠ []
      ∧ (runXhsSessionCrawl (fun _ => true) [] witnessParams []
        [(witnessItem, witnessEnv)]).comments ≠ [])
    ∧ (∃ e, (runXhsSessionCrawl (fun _ => true) [] witnessParams [] []).error
        = some e ∧ e ≠ "")
    ∧ (∃ e, (assembleAdapterResult [] [] "" false).error = some e ∧ e ≠ "") := by
  refine ⟨?_, ?_, ?_⟩
  · exact (platform_result_success_needs_notes_and_comments.1 (fun _ => true)
      [] witnessParams [] [(witnessItem, witnessEnv)]).1 (by decide)
  · exact (platform_result_success_needs_notes_and_comments.1 (fun _ => true)
      [] witnessParams [] []).2 (by decide)
  · exact (platform_result_success_needs_notes_and_comments.2 [] [] ""
      false).2 (by decide)
